import Mathlib

/-!
Shallow embedding of the data-access layer of a financial dashboard
(src/app/lib/data.ts, src/app/lib/actions.ts, src/app/lib/dbConnection.js).

Conventions of the embedding:
* JavaScript numbers are modelled as exact rationals (ℚ); the claims under
  study only exercise values on which JS float arithmetic is exact.
* A `FormData` field (`formData.get`) is `Option String`: `none` is JS `null`
  (field absent), `some s` a string entry.  File entries are not modelled.
* Database state is an explicit record of tables; each SQL statement is a
  pure function over it.
* Effects (connection open/close, logging, cache revalidation, redirect) are
  recorded in an event trace; injected failures of the external world
  (connection establishment, statement execution) are an explicit `World`
  parameter, with error payloads modelled as strings.
-/

/-- Digits of a numeral (as characters) to a natural number
(helper for the JS `Number` coercion model). -/
def digitsVal (cs : List Char) : ℕ :=
  cs.foldl (fun a c => 10 * a + (c.toNat - 48)) 0

/-- Split a character list at the first `.`: the part before it, and
(when a `.` occurs) the part after it. -/
def breakDot : List Char → List Char × Option (List Char)
  | [] => ([], none)
  | c :: cs =>
      if c = '.' then ([], some cs)
      else
        let r := breakDot cs
        (c :: r.1, r.2)

/-- JS `Number(s)` on a plain decimal literal: an optional leading minus
sign, digits, an optional fractional part.  `""` coerces to `0`; a string
that is not such a literal yields `none` (NaN).  (Exponents, hex literals,
`Infinity` and surrounding whitespace are outside the inputs this layer
receives and are not modelled.) -/
def parseDecimal? (s : String) : Option ℚ :=
  match s.toList with
  | [] => some 0
  | cs =>
    let sign : ℚ := if cs.head? = some '-' then -1 else 1
    let body := if cs.head? = some '-' then cs.tail else cs
    match breakDot body with
    | (intPart, none) =>
        if !intPart.isEmpty && intPart.all (·.isDigit) then
          some (sign * (digitsVal intPart : ℚ))
        else none
    | (intPart, some fracPart) =>
        if (!intPart.isEmpty || !fracPart.isEmpty) &&
            intPart.all (·.isDigit) && fracPart.all (·.isDigit) then
          some (sign * ((digitsVal intPart : ℚ) +
            (digitsVal fracPart : ℚ) / (10 : ℚ) ^ fracPart.length))
        else none

/-- zod `z.coerce.number()` applied to a `formData.get` result:
`Number(null) = 0`; a string is coerced as a decimal literal. -/
def coerceNumber (v : Option String) : Option ℚ :=
  match v with
  | none => some 0
  | some s => parseDecimal? s

/-- The raw key/value map submitted to `createInvoice` / `updateInvoice`
(the three fields both actions read from `FormData`). -/
structure RawForm where
  customerId : Option String
  amount : Option String
  status : Option String
deriving Repr, DecidableEq

/-- Field-keyed error-message lists, the shape of
`validatedFields.error.flatten().fieldErrors` for schema `CreateInvoice`. -/
structure FieldErrors where
  customerId : List String
  amount : List String
  status : List String
deriving Repr, DecidableEq

/-- The typed value produced by a successful parse of `CreateInvoice`
(= `FormSchema.omit {id, date}`). -/
structure InvoiceFields where
  customerId : String
  amount : ℚ
  status : String
deriving Repr, DecidableEq

/-- Validation issues of the `customerId` field: `z.string()` with
`invalid_type_error` rejects a missing (null) value. -/
def customerIdIssues (f : RawForm) : List String :=
  match f.customerId with
  | some _ => []
  | none => ["Please select a customer."]

/-- Validation issues of the `amount` field:
`z.coerce.number().gt(0, ...)`. -/
def amountIssues (f : RawForm) : List String :=
  match coerceNumber f.amount with
  | none => ["Expected number, received nan"]
  | some q => if 0 < q then [] else ["Please enter an amount greater than $0."]

/-- Validation issues of the `status` field:
`z.enum([pending, paid], ...)`. -/
def statusIssues (f : RawForm) : List String :=
  match f.status with
  | none => ["Please select an invoice status."]
  | some s =>
      if s = "pending" || s = "paid" then []
      else ["Invalid enum value. Expected pending | paid"]

/-- Model of `CreateInvoice.safeParse` / `UpdateInvoice.parse` on the three form
fields: success yields the typed fields, failure the field-keyed issues
(zod collects the issues of every field). -/
def safeParseInvoice (f : RawForm) : Except FieldErrors InvoiceFields :=
  match f.customerId, coerceNumber f.amount, f.status with
  | some cid, some q, some st =>
      if 0 < q ∧ (st = "pending" ∨ st = "paid") then
        Except.ok ⟨cid, q, st⟩
      else
        Except.error ⟨customerIdIssues f, amountIssues f, statusIssues f⟩
  | _, _, _ => Except.error ⟨customerIdIssues f, amountIssues f, statusIssues f⟩

/-! ## Database state (backing-store schema of §6) -/

/-- A row of `invoices(id, customer_id, amount int, status text, date date)`.
`amount` is the stored cents value; it is carried as ℚ because the insert
parameter is the JS number `amount * 100` (integer for well-formed input).
`date` is modelled as an ordinal day number. -/
structure InvoiceRow where
  id : String
  customer_id : String
  amount : ℚ
  status : String
  date : ℕ
deriving Repr, DecidableEq

/-- A row of `customers(id, name, email, image_url)`. -/
structure CustomerRow where
  id : String
  name : String
  email : String
  image_url : String
deriving Repr, DecidableEq

/-- A row of `revenue(month, revenue)` (raw passthrough). -/
structure RevenueRow where
  month : String
  revenue : ℚ
deriving Repr, DecidableEq

/-- A row of `users(id, email, password)`. -/
structure UserRow where
  id : String
  email : String
  password : String
deriving Repr, DecidableEq

/-- The database state: one list per table. -/
structure Db where
  invoices : List InvoiceRow
  customers : List CustomerRow
  revenue : List RevenueRow
  users : List UserRow
deriving Repr, DecidableEq

/-- Does `pat` occur as a contiguous run of `hay`?
(helper for the percent-wrapped `ILIKE` model). -/
def containsSubstring (hay pat : List Char) : Bool :=
  match hay with
  | [] => pat.isEmpty
  | _ :: t => pat.isPrefixOf hay || containsSubstring t pat

/-- Model of `hay ILIKE` on the percent-wrapped query: case-insensitive substring
match. -/
def ilikeContains (hay q : String) : Bool :=
  containsSubstring (hay.toList.map Char.toLower) (q.toList.map Char.toLower)

/-- Postgres `::text` on a stored amount.  Integer-valued amounts (the only
ones a well-formed store contains, the column being `int`) print as the
plain numeral, as in Postgres. -/
def ratText (q : ℚ) : String :=
  toString q

/-- An invoice row joined with its customer
(`JOIN customers ON invoices.customer_id = customers.id`). -/
structure JoinedInvoice where
  invoice : InvoiceRow
  customer : CustomerRow
deriving Repr, DecidableEq

/-- The inner join of `invoices` with `customers`. -/
def joinInvoicesCustomers (db : Db) : List JoinedInvoice :=
  db.invoices.flatMap fun i =>
    (db.customers.filter fun c => c.id == i.customer_id).map fun c => ⟨i, c⟩

/-- The shared `WHERE` clause of `fetchFilteredInvoices` and
`fetchInvoicesPages`: the percent-wrapped query pattern matched
case-insensitively against name, email, stringified amount, stringified
date and status. -/
def invoiceMatches (q : String) (j : JoinedInvoice) : Bool :=
  ilikeContains j.customer.name q ||
  ilikeContains j.customer.email q ||
  ilikeContains (ratText j.invoice.amount) q ||
  ilikeContains (toString j.invoice.date) q ||
  ilikeContains j.invoice.status q

/-- Model of `ORDER BY invoices.date DESC`. -/
def sortInvoicesByDateDesc (l : List JoinedInvoice) : List JoinedInvoice :=
  l.insertionSort fun a b => b.invoice.date ≤ a.invoice.date

/-- The matching joined rows, in date-descending order. -/
def filteredSortedInvoices (q : String) (db : Db) : List JoinedInvoice :=
  sortInvoicesByDateDesc ((joinInvoicesCustomers db).filter (invoiceMatches q))

/-- Model of `SELECT COUNT(*) ... WHERE <filter>` of `fetchInvoicesPages`. -/
def invoiceMatchCount (q : String) (db : Db) : ℕ :=
  ((joinInvoicesCustomers db).filter (invoiceMatches q)).length

/-- Page size of the invoice list (`const ITEMS_PER_PAGE = 6`). -/
def ITEMS_PER_PAGE : ℕ := 6

/-- Row shape returned by `fetchFilteredInvoices` (its `SELECT` list). -/
structure InvoicesTableRow where
  id : String
  amount : ℚ
  date : ℕ
  status : String
  name : String
  email : String
  image_url : String
deriving Repr, DecidableEq

/-- The `SELECT` list of `fetchFilteredInvoices` applied to a joined row. -/
def toInvoicesTableRow (j : JoinedInvoice) : InvoicesTableRow :=
  ⟨j.invoice.id, j.invoice.amount, j.invoice.date, j.invoice.status,
    j.customer.name, j.customer.email, j.customer.image_url⟩

/-- The result set of `fetchFilteredInvoices(query, currentPage)`:
filter, sort date-descending, `LIMIT 6 OFFSET (currentPage - 1) * 6`. -/
def fetchFilteredInvoicesQuery (q : String) (currentPage : ℕ) (db : Db) :
    List InvoicesTableRow :=
  let offset := (currentPage - 1) * ITEMS_PER_PAGE
  (((filteredSortedInvoices q db).drop offset).take ITEMS_PER_PAGE).map
    toInvoicesTableRow

/-- The value computed by `fetchInvoicesPages`:
`Math.ceil(Number(count) / ITEMS_PER_PAGE)`. -/
def fetchInvoicesPagesQuery (q : String) (db : Db) : ℤ :=
  Int.ceil ((invoiceMatchCount q db : ℚ) / (ITEMS_PER_PAGE : ℚ))

/-- Row shape returned by `fetchInvoiceById` after the cents→dollars map. -/
structure InvoiceFormRow where
  id : String
  customer_id : String
  amount : ℚ
  status : String
deriving Repr, DecidableEq

/-- The value computed by `fetchInvoiceById(id)`: select the rows with the
given id, divide `amount` by 100 (cents to dollars), return `rows[0]`
(JS `undefined`, i.e. `none`, when the result set is empty). -/
def fetchInvoiceByIdQuery (id : String) (db : Db) : Option InvoiceFormRow :=
  ((db.invoices.filter fun r => r.id == id).map fun r =>
    (⟨r.id, r.customer_id, r.amount / 100, r.status⟩ : InvoiceFormRow)).head?

/-- Modelled from the spec: `formatCurrency` lives in `app/lib/utils.ts`,
which is not part of the sources; §3 specifies that display paths divide
the stored cents by 100 and format as a currency string.  No claim under
study depends on the exact text produced. -/
def formatCurrency (amount : ℚ) : String :=
  "$" ++ ratText (amount / 100)

/-- Row shape returned by `fetchLatestInvoices`. -/
structure LatestInvoiceRow where
  amount : String
  name : String
  image_url : String
  email : String
  id : String
deriving Repr, DecidableEq

/-- The value computed by `fetchLatestInvoices`: join, date-descending,
`LIMIT 5`, then format the amount. -/
def fetchLatestInvoicesQuery (db : Db) : List LatestInvoiceRow :=
  ((sortInvoicesByDateDesc (joinInvoicesCustomers db)).take 5).map fun j =>
    ⟨formatCurrency j.invoice.amount, j.customer.name, j.customer.image_url,
      j.customer.email, j.invoice.id⟩

/-- The aggregate returned by `fetchCardData`. -/
structure CardData where
  numberOfCustomers : ℕ
  numberOfInvoices : ℕ
  totalPaidInvoices : String
  totalPendingInvoices : String
deriving Repr, DecidableEq

/-- Model of `SUM(CASE WHEN status = s THEN amount ELSE 0 END)` over `invoices`. -/
def sumAmountsWithStatus (s : String) (db : Db) : ℚ :=
  db.invoices.foldl (fun a r => a + if r.status = s then r.amount else 0) 0

/-- The value computed by `fetchCardData` (the three statements run
concurrently; all three must succeed). -/
def fetchCardDataQuery (db : Db) : CardData :=
  ⟨db.customers.length, db.invoices.length,
    formatCurrency (sumAmountsWithStatus "paid" db),
    formatCurrency (sumAmountsWithStatus "pending" db)⟩

/-- Row shape returned by `fetchCustomers`. -/
structure CustomerFieldRow where
  id : String
  name : String
deriving Repr, DecidableEq

/-- The value computed by `fetchCustomers`: id and name of every customer,
`ORDER BY name ASC`. -/
def fetchCustomersQuery (db : Db) : List CustomerFieldRow :=
  (db.customers.insertionSort fun a b => a.name ≤ b.name).map fun c =>
    ⟨c.id, c.name⟩

/-- Row shape returned by `fetchFilteredCustomers`. -/
structure CustomersTableRow where
  id : String
  name : String
  email : String
  image_url : String
  total_invoices : ℕ
  total_pending : String
  total_paid : String
deriving Repr, DecidableEq

/-- The value computed by `fetchFilteredCustomers(query)`: name/email
filter, left join with invoice aggregates grouped per customer,
name-ascending, currency-formatted totals. -/
def fetchFilteredCustomersQuery (q : String) (db : Db) : List CustomersTableRow :=
  ((db.customers.filter fun c =>
      ilikeContains c.name q || ilikeContains c.email q).insertionSort
        fun a b => a.name ≤ b.name).map fun c =>
    let invs := db.invoices.filter fun r => r.customer_id == c.id
    ⟨c.id, c.name, c.email, c.image_url, invs.length,
      formatCurrency (invs.foldl
        (fun a r => a + if r.status = "pending" then r.amount else 0) 0),
      formatCurrency (invs.foldl
        (fun a r => a + if r.status = "paid" then r.amount else 0) 0)⟩

/-- The value computed by `getUser(email)`: `rows[0]` of the rows whose
`email` matches (`none` = JS `undefined` when there is no such user). -/
def getUserQuery (email : String) (db : Db) : Option UserRow :=
  (db.users.filter fun u => u.email == email).head?

/-! ## Effects: connection lifecycle, logging, revalidation, redirect

Each operation of `data.ts` / `actions.ts` is `connect → query → transform
→ close`.  The external world decides whether connection establishment and
statement execution succeed; the operation records its observable side
effects in an event trace. -/

/-- An observable side effect of one operation. -/
inductive Event where
  | connOpen
  | connClose
  | logError
  | revalidate (path : String)
  | redirect (path : String)
deriving Repr, DecidableEq

/-- Injected outcomes of the external world for one operation:
`connectErr = some e` makes `client.connect()` reject with `e`;
`queryErr = some e` makes the statement execution reject with `e`.
Error payloads are modelled as strings. -/
structure World where
  connectErr : Option String
  queryErr : Option String
deriving Repr, DecidableEq

/-- The world in which connection and statement both succeed. -/
def worldOk : World := ⟨none, none⟩

/-- How an operation finishes. -/
inductive Outcome (α : Type) where
  | ok (value : α)
  | thrown (message : String)
  | raw (err : String)
deriving Repr, DecidableEq

/-- The shared shape of the nine read operations of `data.ts`:
`const client = await connectClient();` **before** the `try` (a rejected
connect propagates the raw error, nothing opened); inside the `try` the
statement runs; `catch` logs and throws `new Error(failMsg)`; `finally`
ends the client. -/
def readOp (w : World) (failMsg : String) (value : α) : Outcome α × List Event :=
  match w.connectErr with
  | some e => (.raw e, [])
  | none =>
    match w.queryErr with
    | some _ => (.thrown failMsg, [.connOpen, .logError, .connClose])
    | none => (.ok value, [.connOpen, .connClose])

/-- Operation `fetchRevenue` (`SELECT * FROM revenue`). -/
def fetchRevenue (w : World) (db : Db) : Outcome (List RevenueRow) × List Event :=
  readOp w "Failed to fetch revenue data." db.revenue

/-- Operation `fetchLatestInvoices`. -/
def fetchLatestInvoices (w : World) (db : Db) :
    Outcome (List LatestInvoiceRow) × List Event :=
  readOp w "Failed to fetch the latest invoices." (fetchLatestInvoicesQuery db)

/-- Operation `fetchCardData`. -/
def fetchCardData (w : World) (db : Db) : Outcome CardData × List Event :=
  readOp w "Failed to fetch card data." (fetchCardDataQuery db)

/-- Operation `fetchFilteredInvoices(query, currentPage)`. -/
def fetchFilteredInvoices (w : World) (q : String) (currentPage : ℕ) (db : Db) :
    Outcome (List InvoicesTableRow) × List Event :=
  readOp w "Failed to fetch invoices." (fetchFilteredInvoicesQuery q currentPage db)

/-- Operation `fetchInvoicesPages(query)`. -/
def fetchInvoicesPages (w : World) (q : String) (db : Db) :
    Outcome ℤ × List Event :=
  readOp w "Failed to fetch total number of invoices." (fetchInvoicesPagesQuery q db)

/-- Operation `fetchInvoiceById(id)`. -/
def fetchInvoiceById (w : World) (id : String) (db : Db) :
    Outcome (Option InvoiceFormRow) × List Event :=
  readOp w "Failed to fetch invoice." (fetchInvoiceByIdQuery id db)

/-- Operation `fetchCustomers`. -/
def fetchCustomers (w : World) (db : Db) :
    Outcome (List CustomerFieldRow) × List Event :=
  readOp w "Failed to fetch all customers." (fetchCustomersQuery db)

/-- Operation `fetchFilteredCustomers(query)`. -/
def fetchFilteredCustomers (w : World) (q : String) (db : Db) :
    Outcome (List CustomersTableRow) × List Event :=
  readOp w "Failed to fetch customer table." (fetchFilteredCustomersQuery q db)

/-- Operation `getUser(email)`. -/
def getUser (w : World) (email : String) (db : Db) :
    Outcome (Option UserRow) × List Event :=
  readOp w "Failed to fetch user." (getUserQuery email db)

/-! ## Mutations (`actions.ts`) -/

/-- How a server action of `actions.ts` finishes. -/
inductive MutationOutcome where
  /-- `createInvoice` returned a `State` with field errors. -/
  | fieldErrors (errors : FieldErrors) (message : String)
  /-- the action returned a `State` with only a database-error message. -/
  | dbMessage (message : String)
  /-- the action ran `redirect(path)` (after `revalidatePath`). -/
  | redirected (path : String)
  /-- `deleteInvoice` returned normally (no redirect). -/
  | completed
  /-- a `ReferenceError`: the named identifier is not in scope. -/
  | referenceError (name : String)
  /-- `UpdateInvoice.parse` threw a `ZodError` carrying these issues. -/
  | zodThrown (errors : FieldErrors)
  /-- `connectClient()` rejected; the raw error propagates. -/
  | connectError (err : String)
deriving Repr, DecidableEq

/-- The full result of a mutation: outcome, database after the call,
event trace. -/
structure MutationResult where
  outcome : MutationOutcome
  db : Db
  trace : List Event
deriving Repr, DecidableEq

/-- Action `createInvoice(formData)` as written in the source: safe-parse the
three fields; on failure return the field errors with message
`Missing Fields. Failed to Create Invoice`; on success the very next
statement is `const amountInCents = amount * 100;`, but `amount` (like
`customerId` and `status`) was never destructured from
`validatedFields.data`, so execution throws a `ReferenceError` before
`connectClient()` is ever reached — no connection, no insert, no
revalidation, no redirect. -/
def createInvoice (_w : World) (f : RawForm) (db : Db) : MutationResult :=
  match safeParseInvoice f with
  | .error errs =>
      ⟨.fieldErrors errs "Missing Fields. Failed to Create Invoice", db, []⟩
  | .ok _ => ⟨.referenceError "amount", db, []⟩

/-- What `createInvoice` performs once the defect is repaired exactly as
the spec directs (destructure the validated fields before use, §4.3/§9) —
the behaviour the spec describes: convert to cents, stamp `today` (the
UTC date-only stamp, passed as a parameter), insert, revalidate,
redirect.  Modelled from the spec for comparison with `createInvoice`. -/
def createInvoiceIntended (w : World) (today : ℕ) (f : RawForm) (db : Db) :
    MutationResult :=
  match safeParseInvoice f with
  | .error errs =>
      ⟨.fieldErrors errs "Missing Fields. Failed to Create Invoice", db, []⟩
  | .ok fields =>
    let amountInCents := fields.amount * 100
    match w.connectErr with
    | some e => ⟨.connectError e, db, []⟩
    | none =>
      match w.queryErr with
      | some _ =>
          ⟨.dbMessage "Database Error: Failed to Create Invoice", db,
            [.connOpen, .connClose]⟩
      | none =>
          ⟨.redirected "/dashboard/invoices",
            { db with invoices := db.invoices ++
                [⟨"", fields.customerId, amountInCents, fields.status, today⟩] },
            [.connOpen, .connClose, .revalidate "/dashboard/invoices",
              .redirect "/dashboard/invoices"]⟩

/-- Action `updateInvoice(id, formData)`: `UpdateInvoice.parse` (throws a
`ZodError` on invalid input); then cents conversion, connect,
`UPDATE ... WHERE id = $4`, close in `finally`, revalidate, redirect.
A caught statement error returns the database-error message (after the
`finally` close). -/
def updateInvoice (w : World) (id : String) (f : RawForm) (db : Db) :
    MutationResult :=
  match safeParseInvoice f with
  | .error errs => ⟨.zodThrown errs, db, []⟩
  | .ok fields =>
    let amountInCents := fields.amount * 100
    match w.connectErr with
    | some e => ⟨.connectError e, db, []⟩
    | none =>
      match w.queryErr with
      | some _ =>
          ⟨.dbMessage "Database Error: Failed to Update Invoice", db,
            [.connOpen, .connClose]⟩
      | none =>
          ⟨.redirected "/dashboard/invoices",
            { db with invoices := db.invoices.map fun r =>
                if r.id = id then
                  { r with customer_id := fields.customerId,
                           amount := amountInCents,
                           status := fields.status }
                else r },
            [.connOpen, .connClose, .revalidate "/dashboard/invoices",
              .redirect "/dashboard/invoices"]⟩

/-- Action `deleteInvoice(id)`: connect, `DELETE ... WHERE id = $1`, close in
`finally`, revalidate; no redirect. -/
def deleteInvoice (w : World) (id : String) (db : Db) : MutationResult :=
  match w.connectErr with
  | some e => ⟨.connectError e, db, []⟩
  | none =>
    match w.queryErr with
    | some _ =>
        ⟨.dbMessage "Database Error: Failed to Delete Invoice", db,
          [.connOpen, .connClose]⟩
    | none =>
        ⟨.completed, { db with invoices := db.invoices.filter fun r => r.id ≠ id },
          [.connOpen, .connClose, .revalidate "/dashboard/invoices"]⟩

/-! ## Singleton-client variant (`dbConnection.js`) -/

/-- State of the module-level singleton of `dbConnection.js`: one shared
client, a mutable `isConnected` flag, and (for observation) a count of
connection attempts actually performed, plus whether the shared client
has been ended by some consumer. -/
structure SingletonState where
  isConnected : Bool
  attempts : ℕ
  ended : Bool
deriving Repr, DecidableEq

/-- Function `connectClient()` of `dbConnection.js`: when the flag is set, return
immediately (no attempt); otherwise attempt `client.connect()` — on
success set the flag, on failure log and rethrow, leaving the flag
untouched.  `ok` is the verdict of the external world on the attempt. -/
def singletonConnectClient (ok : Bool) (s : SingletonState) :
    SingletonState × Outcome Unit :=
  if s.isConnected then (s, .ok ())
  else if ok then
    ({ s with isConnected := true, attempts := s.attempts + 1 }, .ok ())
  else
    ({ s with attempts := s.attempts + 1 }, .raw "connect failed")

/-- Call `client.end()` issued by some consumer of the exported shared client:
the module never resets `isConnected`. -/
def singletonClientEnd (s : SingletonState) : SingletonState :=
  { s with ended := true }

/-- An interaction with the `dbConnection.js` module. -/
inductive SingletonOp where
  | connect (ok : Bool)
  | endClient
deriving Repr, DecidableEq

/-- One interaction step. -/
def singletonStep (s : SingletonState) : SingletonOp → SingletonState
  | .connect ok => (singletonConnectClient ok s).1
  | .endClient => singletonClientEnd s

/-- A whole interaction history. -/
def singletonRun (s : SingletonState) (ops : List SingletonOp) : SingletonState :=
  ops.foldl singletonStep s


/-! ## Claims -/

/-- C1: the spec states that for a valid payload (here customerId =
`cust-1`, amount = `50.00`, status = `paid`) `createInvoice` converts the
amount to 5000 cents, stamps the date, inserts a row, revalidates the
invoices view and redirects.  The source instead throws a
`ReferenceError` right after validation succeeds, because `amount`,
`customerId` and `status` are never destructured from
`validatedFields.data`: nothing is inserted, no connection is opened, no
revalidation or redirect happens.  The second conjunct evaluates the
spec-directed repair (`createInvoiceIntended`), which does insert 5000
cents and redirect. -/
theorem c1_createInvoice_crashes_on_valid_payload :
    createInvoice worldOk ⟨some "cust-1", some "50.00", some "paid"⟩
        ⟨[], [⟨"cust-1", "Ada", "ada@example.com", "/img.png"⟩], [], []⟩ =
      ⟨.referenceError "amount",
        ⟨[], [⟨"cust-1", "Ada", "ada@example.com", "/img.png"⟩], [], []⟩, []⟩ ∧
    createInvoiceIntended worldOk 20000 ⟨some "cust-1", some "50.00", some "paid"⟩
        ⟨[], [⟨"cust-1", "Ada", "ada@example.com", "/img.png"⟩], [], []⟩ =
      ⟨.redirected "/dashboard/invoices",
        ⟨[⟨"", "cust-1", 5000, "paid", 20000⟩],
          [⟨"cust-1", "Ada", "ada@example.com", "/img.png"⟩], [], []⟩,
        [.connOpen, .connClose, .revalidate "/dashboard/invoices",
          .redirect "/dashboard/invoices"]⟩ := by
  constructor
  · with_unfolding_all rfl
  · with_unfolding_all rfl

/-- C5: a form whose amount coerces to a number that is zero or negative
is rejected by `createInvoice` with a field error keyed `amount`
(message `Please enter an amount greater than $0.`); the database is
returned unchanged (no insert) and the event trace is empty (no
connection is ever opened). -/
theorem c5_nonpositive_amount_rejected_without_connection
    (f : RawForm) (db : Db) (w : World) (q : ℚ)
    (hq : coerceNumber f.amount = some q) (hle : q ≤ 0) :
    createInvoice w f db =
      ⟨.fieldErrors ⟨customerIdIssues f, amountIssues f, statusIssues f⟩
        "Missing Fields. Failed to Create Invoice", db, []⟩ ∧
    amountIssues f = ["Please enter an amount greater than $0."] := by
  have hnot : ¬ (0 < q) := not_lt.mpr hle
  have hamt : amountIssues f = ["Please enter an amount greater than $0."] := by
    simp [amountIssues, hq, hnot]
  refine ⟨?_, hamt⟩
  unfold createInvoice safeParseInvoice
  cases hc : f.customerId <;> cases hs : f.status <;> simp [hq, hnot]

/-- C5 witness: amount `0` with an otherwise well-formed payload. -/
theorem c5_witness :
    createInvoice worldOk ⟨some "c1", some "0", some "paid"⟩ ⟨[], [], [], []⟩ =
      ⟨.fieldErrors
        ⟨customerIdIssues ⟨some "c1", some "0", some "paid"⟩,
          amountIssues ⟨some "c1", some "0", some "paid"⟩,
          statusIssues ⟨some "c1", some "0", some "paid"⟩⟩
        "Missing Fields. Failed to Create Invoice", ⟨[], [], [], []⟩, []⟩ ∧
    amountIssues ⟨some "c1", some "0", some "paid"⟩ =
      ["Please enter an amount greater than $0."] :=
  c5_nonpositive_amount_rejected_without_connection _ _ _ 0
    (by with_unfolding_all rfl) le_rfl

/-- C9: when no invoice row has the requested id, `fetchInvoiceById`
completes normally (connection opened and closed, nothing thrown) and its
value is `none` — the JS `undefined` produced by indexing `[0]` into the
empty mapped row list. -/
theorem c9_fetchInvoiceById_missing_id_returns_undefined (id : String) (db : Db)
    (h : ∀ r ∈ db.invoices, r.id ≠ id) :
    fetchInvoiceById worldOk id db =
      (.ok none, [Event.connOpen, Event.connClose]) := by
  have hfilter : db.invoices.filter (fun r => r.id == id) = [] := by
    rw [List.filter_eq_nil_iff]
    intro r hr
    simpa using h r hr
  simp [fetchInvoiceById, readOp, worldOk, fetchInvoiceByIdQuery, hfilter]

/-- C9 witness: a store holding one invoice with a different id. -/
theorem c9_witness :
    fetchInvoiceById worldOk "missing"
      ⟨[⟨"inv1", "c1", 5000, "paid", 100⟩], [], [], []⟩ =
      (.ok none, [Event.connOpen, Event.connClose]) :=
  c9_fetchInvoiceById_missing_id_returns_undefined "missing" _ (by
    intro r hr
    simp at hr
    subst hr
    decide)

/-- Preservation of the `isConnected` flag by one interaction with the
`dbConnection.js` module. -/
theorem singletonStep_preserves_connected (s : SingletonState) (op : SingletonOp)
    (h : s.isConnected = true) : (singletonStep s op).isConnected = true := by
  cases op with
  | connect ok => simp [singletonStep, singletonConnectClient, h]
  | endClient => simp [singletonStep, singletonClientEnd, h]

/-- Preservation of the `isConnected` flag by any interaction history. -/
theorem singletonRun_preserves_connected (ops : List SingletonOp) :
    ∀ s : SingletonState, s.isConnected = true →
      (singletonRun s ops).isConnected = true := by
  induction ops with
  | nil => intro s h; simpa [singletonRun] using h
  | cons op rest ih =>
      intro s h
      have : singletonRun s (op :: rest) = singletonRun (singletonStep s op) rest := rfl
      rw [this]
      exact ih _ (singletonStep_preserves_connected s op h)

/-- C10: in the singleton-client variant, `connectClient` is idempotent —
with the flag set it returns immediately without an attempt and without
touching the state; the flag, once set by a successful connect, survives
every later interaction including `client.end()`; a failed connect leaves
the flag false and rethrows, so the following call performs a fresh
attempt. -/
theorem c10_singleton_connectClient_idempotent
    (n : ℕ) (e : Bool) (ok ok2 : Bool) (ops : List SingletonOp)
    (s : SingletonState) :
    singletonConnectClient ok ⟨true, n, e⟩ = (⟨true, n, e⟩, .ok ()) ∧
    (singletonRun ⟨true, n, e⟩ ops).isConnected = true ∧
    (singletonClientEnd s).isConnected = s.isConnected ∧
    singletonConnectClient true ⟨false, n, e⟩ = (⟨true, n + 1, e⟩, .ok ()) ∧
    singletonConnectClient false ⟨false, n, e⟩ =
      (⟨false, n + 1, e⟩, .raw "connect failed") ∧
    (singletonConnectClient ok2 ⟨false, n + 1, e⟩).1.attempts = n + 2 := by
  refine ⟨rfl, singletonRun_preserves_connected ops _ rfl, rfl, rfl, rfl, ?_⟩
  cases ok2 <;> rfl

/-- C2 counterexample: with a failing connection establishment
(`client.connect()` rejecting with `ECONNREFUSED`), `fetchRevenue`
propagates the raw original error — it is **not** re-raised as
`Failed to fetch revenue data.`, and nothing is logged, because
`connectClient()` is called before the `try` block. -/
theorem c2_counterexample_connect_failure_not_wrapped :
    (fetchRevenue ⟨some "ECONNREFUSED", none⟩ ⟨[], [], [], []⟩).1 =
      .raw "ECONNREFUSED" ∧
    (fetchRevenue ⟨some "ECONNREFUSED", none⟩ ⟨[], [], [], []⟩).1 ≠
      .thrown "Failed to fetch revenue data." ∧
    (fetchRevenue ⟨some "ECONNREFUSED", none⟩ ⟨[], [], [], []⟩).2 = [] := by
  refine ⟨rfl, ?_, rfl⟩
  decide

/-- C2 (amended): for each of the nine read operations, a failure during
**statement execution** is caught, logged (`logError` in the trace) and
re-raised as the domain-specific `Failed to fetch <resource>.` message;
the result is a constant independent of the original error `e`, which is
therefore not preserved.  A failure during **connection establishment**,
by contrast, propagates the original error value unwrapped, unlogged
(empty trace): `connectClient()` runs before the `try`/`catch`. -/
theorem c2_amended_query_failures_wrapped_connect_failures_raw
    (e : String) (db : Db) (q em id2 : String) (p : ℕ) :
    fetchRevenue ⟨none, some e⟩ db =
      (.thrown "Failed to fetch revenue data.",
        [.connOpen, .logError, .connClose]) ∧
    fetchLatestInvoices ⟨none, some e⟩ db =
      (.thrown "Failed to fetch the latest invoices.",
        [.connOpen, .logError, .connClose]) ∧
    fetchCardData ⟨none, some e⟩ db =
      (.thrown "Failed to fetch card data.",
        [.connOpen, .logError, .connClose]) ∧
    fetchFilteredInvoices ⟨none, some e⟩ q p db =
      (.thrown "Failed to fetch invoices.",
        [.connOpen, .logError, .connClose]) ∧
    fetchInvoicesPages ⟨none, some e⟩ q db =
      (.thrown "Failed to fetch total number of invoices.",
        [.connOpen, .logError, .connClose]) ∧
    fetchInvoiceById ⟨none, some e⟩ id2 db =
      (.thrown "Failed to fetch invoice.",
        [.connOpen, .logError, .connClose]) ∧
    fetchCustomers ⟨none, some e⟩ db =
      (.thrown "Failed to fetch all customers.",
        [.connOpen, .logError, .connClose]) ∧
    fetchFilteredCustomers ⟨none, some e⟩ q db =
      (.thrown "Failed to fetch customer table.",
        [.connOpen, .logError, .connClose]) ∧
    getUser ⟨none, some e⟩ em db =
      (.thrown "Failed to fetch user.",
        [.connOpen, .logError, .connClose]) ∧
    fetchRevenue ⟨some e, none⟩ db = (.raw e, []) ∧
    fetchLatestInvoices ⟨some e, none⟩ db = (.raw e, []) ∧
    fetchCardData ⟨some e, none⟩ db = (.raw e, []) ∧
    fetchFilteredInvoices ⟨some e, none⟩ q p db = (.raw e, []) ∧
    fetchInvoicesPages ⟨some e, none⟩ q db = (.raw e, []) ∧
    fetchInvoiceById ⟨some e, none⟩ id2 db = (.raw e, []) ∧
    fetchCustomers ⟨some e, none⟩ db = (.raw e, []) ∧
    fetchFilteredCustomers ⟨some e, none⟩ q db = (.raw e, []) ∧
    getUser ⟨some e, none⟩ em db = (.raw e, []) :=
  ⟨rfl, rfl, rfl, rfl, rfl, rfl, rfl, rfl, rfl,
    rfl, rfl, rfl, rfl, rfl, rfl, rfl, rfl, rfl⟩

/-- A trace closes exactly as many connections as it opened, and opened
at most one. -/
abbrev opensClosedBalanced (tr : List Event) : Prop :=
  tr.count .connClose = tr.count .connOpen ∧ tr.count .connOpen ≤ 1

/-- Every trace produced by the shared read-operation shape is balanced. -/
theorem readOp_balanced (w : World) (msg : String) (v : α) :
    opensClosedBalanced (readOp w msg v).2 := by
  obtain ⟨ce, qe⟩ := w
  cases ce <;> cases qe <;> simp only [readOp] <;> decide

/-- When connection establishment succeeds, the shared read-operation
shape opens exactly one connection. -/
theorem readOp_opens_once (qe : Option String) (msg : String) (v : α) :
    (readOp ⟨none, qe⟩ msg v).2.count .connOpen = 1 := by
  cases qe <;> simp only [readOp] <;> decide

/-- C4: every exported operation closes the connection it opened exactly
once on every exit path — for every world (normal return, caught
statement error, failed connect) the trace counts as many closes as
opens, and never more than one open; `createInvoice` (which
short-circuits before `connectClient()` on validation failure, and
crashes before it on the success path) produces an empty trace, so it
never opens or closes a connection; and whenever the connect succeeds,
the read operations and `deleteInvoice` open exactly one connection. -/
theorem c4_connection_closed_exactly_once_per_open
    (w : World) (db : Db) (q em id2 : String) (p : ℕ) (f : RawForm)
    (qe : Option String) :
    opensClosedBalanced (fetchRevenue w db).2 ∧
    opensClosedBalanced (fetchLatestInvoices w db).2 ∧
    opensClosedBalanced (fetchCardData w db).2 ∧
    opensClosedBalanced (fetchFilteredInvoices w q p db).2 ∧
    opensClosedBalanced (fetchInvoicesPages w q db).2 ∧
    opensClosedBalanced (fetchInvoiceById w id2 db).2 ∧
    opensClosedBalanced (fetchCustomers w db).2 ∧
    opensClosedBalanced (fetchFilteredCustomers w q db).2 ∧
    opensClosedBalanced (getUser w em db).2 ∧
    (createInvoice w f db).trace = [] ∧
    opensClosedBalanced (updateInvoice w id2 f db).trace ∧
    opensClosedBalanced (deleteInvoice w id2 db).trace ∧
    (fetchRevenue ⟨none, qe⟩ db).2.count .connOpen = 1 ∧
    (fetchLatestInvoices ⟨none, qe⟩ db).2.count .connOpen = 1 ∧
    (fetchCardData ⟨none, qe⟩ db).2.count .connOpen = 1 ∧
    (fetchFilteredInvoices ⟨none, qe⟩ q p db).2.count .connOpen = 1 ∧
    (fetchInvoicesPages ⟨none, qe⟩ q db).2.count .connOpen = 1 ∧
    (fetchInvoiceById ⟨none, qe⟩ id2 db).2.count .connOpen = 1 ∧
    (fetchCustomers ⟨none, qe⟩ db).2.count .connOpen = 1 ∧
    (fetchFilteredCustomers ⟨none, qe⟩ q db).2.count .connOpen = 1 ∧
    (getUser ⟨none, qe⟩ em db).2.count .connOpen = 1 ∧
    (deleteInvoice ⟨none, qe⟩ id2 db).trace.count .connOpen = 1 := by
  obtain ⟨ce, qerr⟩ := w
  refine ⟨readOp_balanced _ _ _, readOp_balanced _ _ _, readOp_balanced _ _ _,
    readOp_balanced _ _ _, readOp_balanced _ _ _, readOp_balanced _ _ _,
    readOp_balanced _ _ _, readOp_balanced _ _ _, readOp_balanced _ _ _,
    ?crea, ?upd, ?del,
    readOp_opens_once _ _ _, readOp_opens_once _ _ _, readOp_opens_once _ _ _,
    readOp_opens_once _ _ _, readOp_opens_once _ _ _, readOp_opens_once _ _ _,
    readOp_opens_once _ _ _, readOp_opens_once _ _ _, readOp_opens_once _ _ _,
    ?delOnce⟩
  case crea =>
    cases hp : safeParseInvoice f <;> simp [createInvoice, hp]
  case upd =>
    cases hp : safeParseInvoice f <;>
      cases ce <;> cases qerr <;> simp only [updateInvoice, hp] <;> decide
  case del =>
    cases ce <;> cases qerr <;> simp only [deleteInvoice] <;> decide
  case delOnce =>
    cases qe <;> simp only [deleteInvoice] <;> decide

/-- Ceiling of a natural number divided by six, as natural division. -/
theorem ceil_natCast_div_six (n : ℕ) :
    Int.ceil ((n : ℚ) / 6) = (((n + 5) / 6 : ℕ) : ℤ) := by
  set k := (n + 5) / 6 with hk
  set r := (n + 5) % 6 with hr
  have hdm : 6 * k + r = n + 5 := Nat.div_add_mod (n + 5) 6
  have hlt : r < 6 := Nat.mod_lt _ (by norm_num)
  have hc : (6 : ℚ) * (k : ℚ) + (r : ℚ) = (n : ℚ) + 5 := by exact_mod_cast hdm
  have hle5 : r ≤ 5 := by omega
  have hrc : (r : ℚ) ≤ 5 := by exact_mod_cast hle5
  have hr0 : (0 : ℚ) ≤ (r : ℚ) := by positivity
  have hcast : (((k : ℕ) : ℤ) : ℚ) = (k : ℚ) := by push_cast; ring
  rw [Int.ceil_eq_iff, hcast]
  constructor
  · rw [lt_div_iff₀ (by norm_num : (0:ℚ) < 6)]
    linarith
  · rw [div_le_iff₀ (by norm_num : (0:ℚ) < 6)]
    linarith

/-- C3: `fetchInvoicesPages(query)` returns exactly the ceiling of the
matching-row count divided by the page size 6 — equal, as an integer, to
the natural division `(n + 5) / 6` (hence `0` for `n = 0`, `1` for
`n = 6`, `2` for `n = 7`) — and the returned value times the page size is
at least the count; on the success world the operation returns this value
with a balanced open/close trace. -/
theorem c3_fetchInvoicesPages_is_ceiling_of_count (q : String) (db : Db) :
    fetchInvoicesPagesQuery q db = (((invoiceMatchCount q db + 5) / 6 : ℕ) : ℤ) ∧
    (invoiceMatchCount q db : ℤ) ≤ 6 * fetchInvoicesPagesQuery q db ∧
    (fetchInvoicesPages worldOk q db).1 = .ok (fetchInvoicesPagesQuery q db) ∧
    (fetchInvoicesPages worldOk q db).2 = [.connOpen, .connClose] := by
  have h1 : fetchInvoicesPagesQuery q db =
      (((invoiceMatchCount q db + 5) / 6 : ℕ) : ℤ) := by
    unfold fetchInvoicesPagesQuery ITEMS_PER_PAGE
    push_cast
    exact_mod_cast ceil_natCast_div_six (invoiceMatchCount q db)
  refine ⟨h1, ?_, rfl, rfl⟩
  rw [h1]
  omega

/-- C7: `fetchFilteredInvoices(query, page)` returns at most 6 rows; its
`i`-th row (for `i < 6`) is the row at index `(page − 1) × 6 + i` of the
date-descending matched list — exactly `(page − 1) × 6` matching rows are
skipped; the result is ordered by date descending; and on the success
world the operation returns exactly this result set. -/
theorem c7_fetchFilteredInvoices_window_sorted (q : String) (page : ℕ) (db : Db) :
    (fetchFilteredInvoicesQuery q page db).length ≤ 6 ∧
    (∀ i : Fin 6, (fetchFilteredInvoicesQuery q page db)[(i : ℕ)]? =
      ((filteredSortedInvoices q db)[(page - 1) * 6 + (i : ℕ)]?).map
        toInvoicesTableRow) ∧
    (fetchFilteredInvoicesQuery q page db).Pairwise (fun a b => b.date ≤ a.date) ∧
    (fetchFilteredInvoices worldOk q page db).1 =
      .ok (fetchFilteredInvoicesQuery q page db) := by
  refine ⟨?_, ?_, ?_, rfl⟩
  · simp only [fetchFilteredInvoicesQuery, ITEMS_PER_PAGE, List.length_map]
    exact List.length_take_le 6 _
  · intro i
    simp only [fetchFilteredInvoicesQuery, ITEMS_PER_PAGE]
    rw [List.getElem?_map, List.getElem?_take, if_pos i.isLt, List.getElem?_drop]
  · have hsorted : (filteredSortedInvoices q db).Pairwise
        (fun a b => b.invoice.date ≤ a.invoice.date) := by
      unfold filteredSortedInvoices sortInvoicesByDateDesc
      haveI : IsTotal JoinedInvoice (fun a b => b.invoice.date ≤ a.invoice.date) :=
        ⟨fun a b => Nat.le_total b.invoice.date a.invoice.date⟩
      haveI : IsTrans JoinedInvoice (fun a b => b.invoice.date ≤ a.invoice.date) :=
        ⟨fun _ _ _ hab hbc => Nat.le_trans hbc hab⟩
      exact List.sorted_insertionSort _ _
    simp only [fetchFilteredInvoicesQuery, ITEMS_PER_PAGE]
    apply List.pairwise_map.mpr
    exact ((hsorted.sublist (List.drop_sublist _ _)).sublist
      (List.take_sublist _ _))

/-- Filtering by id commutes with an id-preserving per-row update. -/
theorem filter_id_map_update (l : List InvoiceRow) (u : InvoiceRow → InvoiceRow)
    (hu : ∀ r, (u r).id = r.id) (id : String) :
    (l.map u).filter (fun r => r.id == id) =
      (l.filter (fun r => r.id == id)).map u := by
  induction l with
  | nil => rfl
  | cons a t ih =>
      simp only [List.map_cons, List.filter_cons, hu a]
      by_cases h : a.id = id
      · simp [h, ih]
      · simp [h, ih]

/-- C6: a monetary amount written as integer cents `A` (the submitted
dollar value times 100) reads back, after the documented divide-by-100
conversion of `fetchInvoiceById`, as `A / 100` — the originally submitted
dollar value.  `updateInvoice` is the only writer that ever commits
(first conjunct: `createInvoice` always returns its database unchanged,
its success path crashing before the insert), so the round-trip is
proved through `updateInvoice` on any row whose id exists in the store. -/
theorem c6_cents_roundtrip_dollars
    (id : String) (f : RawForm) (db : Db) (fields : InvoiceFields) (A : ℤ)
    (hparse : safeParseInvoice f = Except.ok fields)
    (hA : fields.amount * 100 = (A : ℚ))
    (r0 : InvoiceRow) (hr0 : r0 ∈ db.invoices) (hid : r0.id = id) :
    (createInvoice worldOk f db).db = db ∧
    ∃ row, fetchInvoiceByIdQuery id (updateInvoice worldOk id f db).db = some row ∧
      row.amount = (A : ℚ) / 100 ∧ (A : ℚ) / 100 = fields.amount := by
  constructor
  · simp [createInvoice, hparse]
  · have hdiv : (A : ℚ) / 100 = fields.amount := by
      rw [← hA]
      field_simp
    set u : InvoiceRow → InvoiceRow := fun r =>
      if r.id = id then
        { r with customer_id := fields.customerId,
                 amount := fields.amount * 100,
                 status := fields.status }
      else r with hu
    have hupd : (updateInvoice worldOk id f db).db =
        { db with invoices := db.invoices.map u } := by
      simp [updateInvoice, hparse, worldOk, hu]
    have hidpre : ∀ r, (u r).id = r.id := by
      intro r
      by_cases h : r.id = id <;> simp [hu, h]
    have hmem : r0 ∈ db.invoices.filter (fun r => r.id == id) :=
      List.mem_filter.mpr ⟨hr0, by simp [hid]⟩
    have hne : db.invoices.filter (fun r => r.id == id) ≠ [] :=
      List.ne_nil_of_mem hmem
    set F := db.invoices.filter (fun r => r.id == id) with hF
    set r1 := F.head hne with hr1
    have hhead : F.head? = some r1 := List.head?_eq_head hne
    have hr1mem : r1 ∈ F := List.head_mem hne
    have hr1id : r1.id = id := by
      have := (List.mem_filter.mp hr1mem).2
      simpa using this
    refine ⟨⟨r1.id, fields.customerId, fields.amount * 100 / 100, fields.status⟩,
      ?_, ?_, hdiv⟩
    · unfold fetchInvoiceByIdQuery
      rw [hupd]
      show (((db.invoices.map u).filter (fun r => r.id == id)).map _).head? = _
      rw [filter_id_map_update db.invoices u hidpre id, List.map_map, ← hF,
        List.head?_map, hhead]
      simp [hu, hr1id]
    · show fields.amount * 100 / 100 = (A : ℚ) / 100
      rw [hA]

/-- C6 witness: dollars `50.00` become 5000 cents and read back as 50. -/
theorem c6_witness :
    (createInvoice worldOk ⟨some "c1", some "50.00", some "paid"⟩
        ⟨[⟨"inv1", "c0", 1200, "pending", 70⟩], [], [], []⟩).db =
      ⟨[⟨"inv1", "c0", 1200, "pending", 70⟩], [], [], []⟩ ∧
    ∃ row, fetchInvoiceByIdQuery "inv1"
        (updateInvoice worldOk "inv1" ⟨some "c1", some "50.00", some "paid"⟩
          ⟨[⟨"inv1", "c0", 1200, "pending", 70⟩], [], [], []⟩).db = some row ∧
      row.amount = ((5000 : ℤ) : ℚ) / 100 ∧ ((5000 : ℤ) : ℚ) / 100 = (50 : ℚ) :=
  c6_cents_roundtrip_dollars "inv1" ⟨some "c1", some "50.00", some "paid"⟩
    ⟨[⟨"inv1", "c0", 1200, "pending", 70⟩], [], [], []⟩ ⟨"c1", 50, "paid"⟩ 5000
    (by with_unfolding_all rfl) (by with_unfolding_all rfl)
    ⟨"inv1", "c0", 1200, "pending", 70⟩ (by simp) rfl

/-- C8: `updateInvoice` uses `parse`, not `safeParse`: on a form failing
schema validation it throws the `ZodError` (no field-error payload, no
connection, database untouched); on a form passing validation (success
world) it converts the amount to cents, updates exactly the rows whose id
matches, revalidates the invoices view and redirects. -/
theorem c8_updateInvoice_throws_on_invalid_updates_on_valid
    (w : World) (id : String) (f : RawForm) (db : Db) :
    (∀ errs, safeParseInvoice f = Except.error errs →
      updateInvoice w id f db = ⟨.zodThrown errs, db, []⟩) ∧
    (∀ fields, safeParseInvoice f = Except.ok fields →
      updateInvoice worldOk id f db =
        ⟨.redirected "/dashboard/invoices",
          { db with invoices := db.invoices.map fun r =>
              if r.id = id then
                { r with customer_id := fields.customerId,
                         amount := fields.amount * 100,
                         status := fields.status }
              else r },
          [.connOpen, .connClose, .revalidate "/dashboard/invoices",
            .redirect "/dashboard/invoices"]⟩) := by
  constructor
  · intro errs h
    simp [updateInvoice, h]
  · intro fields h
    simp [updateInvoice, h, worldOk]

/-- C8 witness: a form whose amount is missing (coerces to 0, failing
`gt(0)`) throws the `ZodError`; a valid form updates the matching row to
2500 cents, revalidates and redirects. -/
theorem c8_witness :
    updateInvoice worldOk "inv1" ⟨some "c1", none, some "paid"⟩
        ⟨[⟨"inv1", "c0", 1200, "pending", 70⟩], [], [], []⟩ =
      ⟨.zodThrown ⟨[], ["Please enter an amount greater than $0."], []⟩,
        ⟨[⟨"inv1", "c0", 1200, "pending", 70⟩], [], [], []⟩, []⟩ ∧
    updateInvoice worldOk "inv1" ⟨some "c2", some "25", some "pending"⟩
        ⟨[⟨"inv1", "c0", 1200, "pending", 70⟩], [], [], []⟩ =
      ⟨.redirected "/dashboard/invoices",
        ⟨[⟨"inv1", "c2", 2500, "pending", 70⟩], [], [], []⟩,
        [.connOpen, .connClose, .revalidate "/dashboard/invoices",
          .redirect "/dashboard/invoices"]⟩ := by
  constructor
  · with_unfolding_all
      exact (c8_updateInvoice_throws_on_invalid_updates_on_valid worldOk "inv1"
        ⟨some "c1", none, some "paid"⟩
        ⟨[⟨"inv1", "c0", 1200, "pending", 70⟩], [], [], []⟩).1
        ⟨[], ["Please enter an amount greater than $0."], []⟩
        (by with_unfolding_all rfl)
  · with_unfolding_all
      exact (c8_updateInvoice_throws_on_invalid_updates_on_valid worldOk "inv1"
        ⟨some "c2", some "25", some "pending"⟩
        ⟨[⟨"inv1", "c0", 1200, "pending", 70⟩], [], [], []⟩).2
        ⟨"c2", 25, "pending"⟩ (by with_unfolding_all rfl)
